import Mathlib

set_option linter.unusedVariables false

/-!
Verification of the energy-management simulation in `energyManagement.py`.

The script runs a fixed-step loop over a demand/speed profile.  Each step:

* determines the operating mode (`0` = EV, `1` = Hybrid, `2` = Engine Only)
  from the current SoC and the current demand,
* splits the demand into engine power and motor power according to the mode,
* sets `battery_power = motor_power`, removes charge from the battery when
  `battery_power > 0`, clamps the SoC to `[0, 1]`, and
* records `(SoC, mode, engine_power, motor_power, battery_power)`.

The embedding below models the numeric state with `ℚ` (the Python code uses
floats; every claim under scrutiny is about the exact arithmetic of the
formulas, not about rounding).  The mode codes `0/1/2` are kept as in the
script.
-/

namespace EnergyManagement

/-- The configuration scalars set at the top of the script (sections 1–3).
`SoC_Cruise`, `battery_internal_resistance` and `regen_efficiency` appear in
the script but are never read by the loop; they are kept for fidelity. -/
structure Config where
  dt : ℚ
  total_time : ℚ
  battery_capacity_Wh : ℚ
  battery_voltage : ℚ
  SoC_init : ℚ
  battery_internal_resistance : ℚ
  SoC_High : ℚ
  SoC_Low : ℚ
  SoC_Cruise : ℚ
  Power_Demand_Threshold : ℚ
  Max_Electric_Power : ℚ
  regen_efficiency : ℚ
  deriving DecidableEq

/-- `battery_capacity_C = battery_capacity_Wh * 3600 / battery_voltage`
(line 31 of the script: "Convert capacity to Coulombs"). -/
def battery_capacity_C (c : Config) : ℚ :=
  c.battery_capacity_Wh * 3600 / c.battery_voltage

/-- The concrete parameter values the script assigns (lines 7, 8, 27–50). -/
def defaultConfig : Config where
  dt := 1
  total_time := 1800
  battery_capacity_Wh := 10 * 1000
  battery_voltage := 200
  SoC_init := 7/10
  battery_internal_resistance := 5/100
  SoC_High := 8/10
  SoC_Low := 3/10
  SoC_Cruise := 5/10
  Power_Demand_Threshold := 20
  Max_Electric_Power := 30
  regen_efficiency := 3/10

/-- One record of the output trace: the per-step values the loop appends to
`mode_array`, `engine_power_array`, `motor_power_array`,
`battery_power_array` and `SoC_array` (lines 134–138). -/
structure StepOutput where
  mode : ℕ
  engine_power : ℚ
  motor_power : ℚ
  battery_power : ℚ
  SoC : ℚ
  deriving DecidableEq

/-- Mode determination, lines 74–86 of the script:
`0` = EV, `1` = Hybrid, `2` = Engine Only. -/
def selectMode (c : Config) (SoC demand : ℚ) : ℕ :=
  if SoC > c.SoC_High ∧ demand < c.Max_Electric_Power then 0
  else if SoC < c.SoC_Low then 2
  else if demand > c.Power_Demand_Threshold then 1
  else 0

/-- Power split, lines 88–110 of the script.  Returns
`(engine_power, motor_power)` for the given mode and demand. -/
def powerSplit (c : Config) (current_mode : ℕ) (demand : ℚ) : ℚ × ℚ :=
  if current_mode = 0 then
    if demand ≤ c.Max_Electric_Power then (0, demand)
    else (demand - c.Max_Electric_Power, c.Max_Electric_Power)
  else if current_mode = 1 then
    (demand / 2, min (demand / 2) c.Max_Electric_Power)
  else
    (demand, 0)

/-- `SoC = max(0.0, min(1.0, SoC))`, line 131 of the script. -/
def clamp01 (x : ℚ) : ℚ := max 0 (min 1 x)

/-- Battery interaction, lines 115–131 of the script: convert the battery
power to watts, remove charge when discharging (`battery_power > 0`), do
nothing otherwise, then clamp the SoC to `[0, 1]`. -/
def integrate (c : Config) (SoC battery_power : ℚ) : ℚ :=
  let power_in_watts := battery_power * 1000
  let SoC1 :=
    if battery_power > 0 then
      SoC - (power_in_watts * c.dt / c.battery_voltage) / battery_capacity_C c
    else
      SoC
  clamp01 SoC1

/-- One iteration of the loop body (lines 69–138): mode determination, power
split, `battery_power = motor_power`, battery interaction, clamping.
Returns the record appended to the trace together with the SoC carried to
the next step.  `speed` is read by the loop body (line 71) but never used by
the control or battery logic. -/
def simStep (c : Config) (SoC demand speed : ℚ) : StepOutput × ℚ :=
  let current_mode := selectMode c SoC demand
  let split := powerSplit c current_mode demand
  let engine_power := split.1
  let motor_power := split.2
  let battery_power := motor_power
  let SoC2 := integrate c SoC battery_power
  (⟨current_mode, engine_power, motor_power, battery_power, SoC2⟩, SoC2)

/-- The simulation loop (lines 69–138): steps through the demand and speed
profiles in lockstep, threading the SoC, and collects the output trace.  In
the script both profiles have exactly `total_time / dt` entries, so the loop
consumes them together. -/
def simulate (c : Config) : ℚ → List ℚ → List ℚ → List StepOutput
  | SoC, demand :: ds, speed :: sps =>
      let r := simStep c SoC demand speed
      r.1 :: simulate c r.2 ds sps
  | _, _, _ => []

/-- The SoC trajectory of a run: the initial SoC followed by the recorded
SoC of every step. -/
def socSeq (c : Config) (SoC0 : ℚ) (ds sps : List ℚ) : List ℚ :=
  SoC0 :: (simulate c SoC0 ds sps).map StepOutput.SoC

/-- The per-step SoC decrement caused by a constant positive motor power
`p`, as computed by the discharge branch (lines 118–123). -/
def dischargeDelta (c : Config) (p : ℚ) : ℚ :=
  (p * 1000 * c.dt / c.battery_voltage) / battery_capacity_C c

/-! ### Basic lemmas about the embedding -/

lemma clamp01_nonneg (x : ℚ) : 0 ≤ clamp01 x := le_max_left 0 _

lemma clamp01_le_one (x : ℚ) : clamp01 x ≤ 1 :=
  max_le (by norm_num) (min_le_left 1 x)

lemma clamp01_of_bounds {x : ℚ} (h0 : 0 ≤ x) (h1 : x ≤ 1) : clamp01 x = x := by
  unfold clamp01
  rw [min_eq_right h1, max_eq_right h0]

lemma simulate_nil_demand (c : Config) (SoC0 : ℚ) (sps : List ℚ) :
    simulate c SoC0 [] sps = [] := by
  cases sps <;> rfl

lemma simulate_nil_speed (c : Config) (SoC0 : ℚ) (ds : List ℚ) :
    simulate c SoC0 ds [] = [] := by
  cases ds <;> rfl

lemma simulate_cons (c : Config) (SoC0 d v : ℚ) (ds sps : List ℚ) :
    simulate c SoC0 (d :: ds) (v :: sps) =
      (simStep c SoC0 d v).1 :: simulate c (simStep c SoC0 d v).2 ds sps := rfl

lemma simStep_snd (c : Config) (SoC demand speed : ℚ) :
    (simStep c SoC demand speed).2 = (simStep c SoC demand speed).1.SoC := rfl

lemma simStep_mode (c : Config) (SoC demand speed : ℚ) :
    (simStep c SoC demand speed).1.mode = selectMode c SoC demand := rfl

lemma simStep_engine (c : Config) (SoC demand speed : ℚ) :
    (simStep c SoC demand speed).1.engine_power =
      (powerSplit c (selectMode c SoC demand) demand).1 := rfl

lemma simStep_motor (c : Config) (SoC demand speed : ℚ) :
    (simStep c SoC demand speed).1.motor_power =
      (powerSplit c (selectMode c SoC demand) demand).2 := rfl

lemma simStep_battery (c : Config) (SoC demand speed : ℚ) :
    (simStep c SoC demand speed).1.battery_power =
      (simStep c SoC demand speed).1.motor_power := rfl

lemma simStep_SoC (c : Config) (SoC demand speed : ℚ) :
    (simStep c SoC demand speed).1.SoC =
      integrate c SoC (simStep c SoC demand speed).1.motor_power := rfl

lemma integrate_of_pos (c : Config) (SoC : ℚ) {bp : ℚ} (h : 0 < bp) :
    integrate c SoC bp =
      clamp01 (SoC - (bp * 1000 * c.dt / c.battery_voltage) / battery_capacity_C c) := by
  simp only [integrate]
  rw [if_pos h]

lemma integrate_of_nonpos (c : Config) (SoC : ℚ) {bp : ℚ} (h : bp ≤ 0) :
    integrate c SoC bp = clamp01 SoC := by
  simp only [integrate]
  rw [if_neg (by exact not_lt.mpr h)]

/-! ### C1: SoC bounds -/

/-- C1: for every input demand/speed sequence (adversarial demand included)
and every initial SoC in `[0, 1]`, every recorded SoC of the run lies in
`[0, 1]`: the per-step update clamps the computed SoC to `[0, 1]` before it
is stored and carried to the next step. -/
theorem soc_bounds (c : Config) (SoC0 : ℚ) (h0 : 0 ≤ SoC0) (h1 : SoC0 ≤ 1)
    (ds sps : List ℚ) :
    ∀ out ∈ simulate c SoC0 ds sps, 0 ≤ out.SoC ∧ out.SoC ≤ 1 := by
  clear h0 h1
  induction ds generalizing SoC0 sps with
  | nil => simp [simulate_nil_demand]
  | cons d ds ih =>
    cases sps with
    | nil => simp [simulate_nil_speed]
    | cons v sps =>
      intro out hout
      rw [simulate_cons, List.mem_cons] at hout
      rcases hout with h | h
      · subst h
        rw [simStep_SoC]
        unfold integrate
        exact ⟨clamp01_nonneg _, clamp01_le_one _⟩
      · exact ih _ _ out h

/-- C1 witness: a concrete adversarial run (demand `300 = Max_Electric_Power
* 10` at every step) starting from the default initial SoC. -/
theorem soc_bounds_witness :
    0 ≤ ((simStep defaultConfig (7/10) 300 0).1).SoC ∧
      ((simStep defaultConfig (7/10) 300 0).1).SoC ≤ 1 :=
  soc_bounds defaultConfig (7/10) (by norm_num) (by norm_num) [300] [0]
    (simStep defaultConfig (7/10) 300 0).1 (by rw [simulate_cons]; exact List.mem_cons_self _ _)

/-! ### C2: mode priority -/

/-- C2: the mode decision follows the priority order, first match winning:
rule 1 (`SoC > SoC_High` and `demand < Max_Electric_Power`) gives EV;
otherwise rule 2 (`SoC < SoC_Low`) gives Engine Only, and then for any
demand whatsoever `motor_power = 0` and `engine_power = demand`; otherwise
`demand > Power_Demand_Threshold` decides between Hybrid and EV. -/
theorem mode_priority (c : Config) (SoC demand speed : ℚ) :
    (SoC > c.SoC_High ∧ demand < c.Max_Electric_Power →
      (simStep c SoC demand speed).1.mode = 0) ∧
    (¬(SoC > c.SoC_High ∧ demand < c.Max_Electric_Power) → SoC < c.SoC_Low →
      (simStep c SoC demand speed).1.mode = 2 ∧
      (simStep c SoC demand speed).1.motor_power = 0 ∧
      (simStep c SoC demand speed).1.engine_power = demand) ∧
    (¬(SoC > c.SoC_High ∧ demand < c.Max_Electric_Power) → ¬SoC < c.SoC_Low →
      (simStep c SoC demand speed).1.mode =
        if demand > c.Power_Demand_Threshold then 1 else 0) := by
  refine ⟨fun h1 => ?_, fun h1 h2 => ?_, fun h1 h2 => ?_⟩
  · rw [simStep_mode]
    unfold selectMode
    rw [if_pos h1]
  · rw [simStep_mode, simStep_motor, simStep_engine]
    unfold selectMode powerSplit
    rw [if_neg h1, if_pos h2]
    norm_num
  · rw [simStep_mode]
    unfold selectMode
    rw [if_neg h1, if_neg h2]

/-- C2 witness: the low-SoC override at `SoC = 0.2`, `demand = 15` (rule 2),
and rule 1 at `SoC = 0.9`, `demand = 10`. -/
theorem mode_priority_witness :
    ((simStep defaultConfig (2/10) 15 0).1.mode = 2 ∧
     (simStep defaultConfig (2/10) 15 0).1.motor_power = 0 ∧
     (simStep defaultConfig (2/10) 15 0).1.engine_power = 15) ∧
    (simStep defaultConfig (9/10) 10 0).1.mode = 0 :=
  ⟨(mode_priority defaultConfig (2/10) 15 0).2.1
      (by norm_num [defaultConfig]) (by norm_num [defaultConfig]),
   (mode_priority defaultConfig (9/10) 10 0).1 (by norm_num [defaultConfig])⟩

/-! ### C3: power split per mode -/

/-- C3: given the selected mode, the power split is exactly: EV supplies the
demand from the motor up to `Max_Electric_Power` with the engine covering
the excess; Hybrid assigns `demand / 2` to the engine and
`min (demand / 2) Max_Electric_Power` to the motor; Engine Only assigns the
whole demand to the engine.  In particular `SoC = 0.5`, `demand = 25` under
the script's parameters gives Hybrid with a `12.5 / 12.5` split. -/
theorem power_split_correct (c : Config) (SoC demand speed : ℚ) :
    ((simStep c SoC demand speed).1.mode = 0 →
      (demand ≤ c.Max_Electric_Power →
        (simStep c SoC demand speed).1.motor_power = demand ∧
        (simStep c SoC demand speed).1.engine_power = 0) ∧
      (c.Max_Electric_Power < demand →
        (simStep c SoC demand speed).1.motor_power = c.Max_Electric_Power ∧
        (simStep c SoC demand speed).1.engine_power = demand - c.Max_Electric_Power)) ∧
    ((simStep c SoC demand speed).1.mode = 1 →
      (simStep c SoC demand speed).1.engine_power = demand / 2 ∧
      (simStep c SoC demand speed).1.motor_power = min (demand / 2) c.Max_Electric_Power) ∧
    ((simStep c SoC demand speed).1.mode = 2 →
      (simStep c SoC demand speed).1.engine_power = demand ∧
      (simStep c SoC demand speed).1.motor_power = 0) ∧
    ((simStep defaultConfig (1/2) 25 0).1.mode = 1 ∧
     (simStep defaultConfig (1/2) 25 0).1.engine_power = 25/2 ∧
     (simStep defaultConfig (1/2) 25 0).1.motor_power = 25/2) := by
  refine ⟨fun hm => ⟨fun hd => ?_, fun hd => ?_⟩, fun hm => ?_, fun hm => ?_, ?_⟩
  · rw [simStep_mode] at hm
    rw [simStep_motor, simStep_engine, hm]
    unfold powerSplit
    rw [if_pos rfl, if_pos hd]
    exact ⟨rfl, rfl⟩
  · rw [simStep_mode] at hm
    rw [simStep_motor, simStep_engine, hm]
    unfold powerSplit
    rw [if_pos rfl, if_neg (not_le.mpr hd)]
    exact ⟨rfl, rfl⟩
  · rw [simStep_mode] at hm
    rw [simStep_motor, simStep_engine, hm]
    unfold powerSplit
    norm_num
  · rw [simStep_mode] at hm
    rw [simStep_motor, simStep_engine, hm]
    unfold powerSplit
    norm_num
  · norm_num [simStep, selectMode, powerSplit, integrate, clamp01, battery_capacity_C,
      defaultConfig]

/-- C3 witness: the Engine Only split at `SoC = 0.2`, `demand = 40`. -/
theorem power_split_correct_witness :
    (simStep defaultConfig (2/10) 40 0).1.engine_power = 40 ∧
    (simStep defaultConfig (2/10) 40 0).1.motor_power = 0 :=
  (power_split_correct defaultConfig (2/10) 40 0).2.2.1
    (by norm_num [simStep_mode, selectMode, defaultConfig])

/-! ### C4: battery update -/

/-- C4: when `motor_power > 0` the recorded SoC is the old SoC minus
`(motor_power * 1000 * dt / battery_voltage) / battery_capacity_C`, clamped
to `[0, 1]`; when `motor_power <= 0` the SoC is unchanged apart from the
clamp; the recorded SoC is exactly the value carried to the next step; and
`battery_capacity_C` is derived as `battery_capacity_Wh * 3600 /
battery_voltage`. -/
theorem battery_update (c : Config) (SoC demand speed : ℚ) :
    (0 < (simStep c SoC demand speed).1.motor_power →
      (simStep c SoC demand speed).1.SoC =
        clamp01 (SoC -
          ((simStep c SoC demand speed).1.motor_power * 1000 * c.dt / c.battery_voltage) /
            battery_capacity_C c)) ∧
    ((simStep c SoC demand speed).1.motor_power ≤ 0 →
      (simStep c SoC demand speed).1.SoC = clamp01 SoC) ∧
    (simStep c SoC demand speed).2 = (simStep c SoC demand speed).1.SoC ∧
    battery_capacity_C c = c.battery_capacity_Wh * 3600 / c.battery_voltage := by
  refine ⟨fun h => ?_, fun h => ?_, simStep_snd c SoC demand speed, rfl⟩
  · rw [simStep_SoC, integrate_of_pos c SoC h]
  · rw [simStep_SoC, integrate_of_nonpos c SoC h]

/-- C4 witness: a discharging step (`SoC = 0.7`, `demand = 10`, EV mode) and
a no-op step (`SoC = 0.2`, Engine Only, `motor_power = 0`). -/
theorem battery_update_witness :
    (simStep defaultConfig (7/10) 10 0).1.SoC =
      clamp01 ((7:ℚ)/10 -
        ((simStep defaultConfig (7/10) 10 0).1.motor_power * 1000 * defaultConfig.dt /
          defaultConfig.battery_voltage) / battery_capacity_C defaultConfig) ∧
    (simStep defaultConfig (2/10) 10 0).1.SoC = clamp01 (2/10) :=
  ⟨(battery_update defaultConfig (7/10) 10 0).1
      (by norm_num [simStep_motor, selectMode, powerSplit, defaultConfig]),
   (battery_update defaultConfig (2/10) 10 0).2.1
      (by norm_num [simStep_motor, selectMode, powerSplit, defaultConfig])⟩

/-! ### C5: the "EV saturation" scenario -/

/-- C5 counterexample: at `SoC = 0.9`, `demand = 35` under the script's
parameters the step does NOT resolve to EV with `motor_power = 30` and
`engine_power = 5`: rule 1 fails (`demand >= Max_Electric_Power`) and rule 3
then selects Hybrid because `demand > Power_Demand_Threshold`. -/
theorem ev_saturation_counterexample :
    ¬((simStep defaultConfig (9/10) 35 0).1.mode = 0 ∧
      (simStep defaultConfig (9/10) 35 0).1.motor_power = 30 ∧
      (simStep defaultConfig (9/10) 35 0).1.engine_power = 5) := by
  norm_num [simStep, selectMode, powerSplit, integrate, clamp01, battery_capacity_C,
    defaultConfig]

/-- C5 amended: at `SoC = 0.9`, `demand = 35`, rule 1 indeed fails, and the
step resolves to mode = HYBRID with `engine_power = motor_power = 17.5`. -/
theorem ev_saturation_amended :
    ¬((9:ℚ)/10 > defaultConfig.SoC_High ∧ (35:ℚ) < defaultConfig.Max_Electric_Power) ∧
    (simStep defaultConfig (9/10) 35 0).1.mode = 1 ∧
    (simStep defaultConfig (9/10) 35 0).1.engine_power = 35/2 ∧
    (simStep defaultConfig (9/10) 35 0).1.motor_power = 35/2 := by
  norm_num [simStep, selectMode, powerSplit, integrate, clamp01, battery_capacity_C,
    defaultConfig]

/-! ### C6: configuration validation -/

/-- A configuration violating the documented invariant `SoC_Low < SoC_High`
(here `SoC_Low = 0.9 >= SoC_High = 0.8`). -/
def badConfig : Config := { defaultConfig with SoC_Low := 9/10 }

/-- C6 counterexample: the script performs no configuration validation.
With `SoC_Low >= SoC_High` the simulation still executes its step: the run
on one sample produces one full output record (Engine Only at `SoC = 0.5 <
SoC_Low`), and no error of any kind is raised — the embedding of the loop
is total. -/
theorem config_validation_counterexample :
    badConfig.SoC_High ≤ badConfig.SoC_Low ∧
    simulate badConfig (1/2) [10] [0] ≠ [] ∧
    (simulate badConfig (1/2) [10] [0]).length = 1 ∧
    (simulate badConfig (1/2) [10] [0]).map StepOutput.mode = [2] := by
  refine ⟨by norm_num [badConfig, defaultConfig], ?_, ?_, ?_⟩ <;>
    norm_num [simulate, simStep, selectMode, powerSplit, integrate, clamp01,
      battery_capacity_C, badConfig, defaultConfig]

/-- C6 amended: the code performs no configuration validation at all — for
every configuration (invalid ones included) and equal-length input
sequences, the loop runs one step per sample, so the simulation always
proceeds and no ConfigurationError exists. -/
theorem no_validation_full_run (c : Config) (SoC0 : ℚ) (ds sps : List ℚ)
    (h : sps.length = ds.length) :
    (simulate c SoC0 ds sps).length = ds.length := by
  induction ds generalizing SoC0 sps with
  | nil => simp [simulate_nil_demand]
  | cons d ds ih =>
    cases sps with
    | nil => simp at h
    | cons v sps =>
      rw [simulate_cons]
      simp only [List.length_cons] at h ⊢
      have := ih ((simStep c SoC0 d v).2) sps (by omega)
      omega

/-- C6 witness: the invalid configuration `badConfig` still runs all three
steps of a three-sample input. -/
theorem no_validation_full_run_witness :
    (simulate badConfig (1/2) [10, 10, 10] [0, 0, 0]).length = 3 :=
  no_validation_full_run badConfig (1/2) [10, 10, 10] [0, 0, 0] rfl

/-! ### C7: zero-demand idempotence -/

lemma powerSplit_motor_zero (c : Config) (hM : 0 ≤ c.Max_Electric_Power) (m : ℕ) :
    (powerSplit c m 0).2 = 0 := by
  unfold powerSplit
  by_cases h0 : m = 0
  · rw [if_pos h0, if_pos hM]
  · rw [if_neg h0]
    by_cases h1 : m = 1
    · rw [if_pos h1]
      norm_num [min_eq_left hM]
    · rw [if_neg h1]

lemma zero_demand_aux (c : Config) (hM : 0 ≤ c.Max_Electric_Power) :
    ∀ (ds : List ℚ) (SoC0 : ℚ) (sps : List ℚ), 0 ≤ SoC0 → SoC0 ≤ 1 →
      (∀ d ∈ ds, d = 0) →
      ∀ out ∈ simulate c SoC0 ds sps, out.SoC = SoC0 ∧ out.motor_power = 0 := by
  intro ds
  induction ds with
  | nil =>
    intro SoC0 sps _ _ _
    simp [simulate_nil_demand]
  | cons d ds ih =>
    intro SoC0 sps h0 h1 hd
    cases sps with
    | nil => simp [simulate_nil_speed]
    | cons v sps =>
      have hd0 : d = 0 := hd d (List.mem_cons_self _ _)
      subst hd0
      have hmotor : (simStep c SoC0 0 v).1.motor_power = 0 := by
        rw [simStep_motor]
        exact powerSplit_motor_zero c hM _
      have hsoc : (simStep c SoC0 0 v).1.SoC = SoC0 := by
        rw [simStep_SoC, hmotor, integrate_of_nonpos c SoC0 le_rfl]
        exact clamp01_of_bounds h0 h1
      intro out hout
      rw [simulate_cons, List.mem_cons] at hout
      rcases hout with h | h
      · subst h
        exact ⟨hsoc, hmotor⟩
      · rw [simStep_snd, hsoc] at h
        exact ih SoC0 sps h0 h1 (fun x hx => hd x (List.mem_cons_of_mem _ hx)) out h

/-- C7: if the demand is `0` at every step then, for any initial SoC in
`[0, 1]`, every recorded SoC of the run equals `SoC_init` and the motor
power is `0` throughout, so no charge is ever removed. -/
theorem zero_demand_constant (c : Config) (hM : 0 ≤ c.Max_Electric_Power)
    (SoC0 : ℚ) (h0 : 0 ≤ SoC0) (h1 : SoC0 ≤ 1) (ds sps : List ℚ)
    (hd : ∀ d ∈ ds, d = 0) :
    ∀ out ∈ simulate c SoC0 ds sps, out.SoC = SoC0 ∧ out.motor_power = 0 :=
  zero_demand_aux c hM ds SoC0 sps h0 h1 hd

/-- C7 witness: a two-step all-zero run from the default initial SoC keeps
the SoC at `0.7`. -/
theorem zero_demand_constant_witness :
    (simStep defaultConfig (7/10) 0 0).1.SoC = 7/10 ∧
    (simStep defaultConfig (7/10) 0 0).1.motor_power = 0 :=
  zero_demand_constant defaultConfig (by norm_num [defaultConfig]) (7/10)
    (by norm_num) (by norm_num) [0] [0] (by simp)
    (simStep defaultConfig (7/10) 0 0).1
    (by rw [simulate_cons]; exact List.mem_cons_self _ _)

/-! ### C8: discharge monotonicity -/

lemma discharge_monotone_aux (c : Config) (p : ℚ) (hp : 0 < p)
    (hδ : 0 < dischargeDelta c p) :
    ∀ (ds : List ℚ) (SoC0 : ℚ) (sps : List ℚ),
      (∀ out ∈ simulate c SoC0 ds sps, out.motor_power = p) →
      (∀ x ∈ socSeq c SoC0 ds sps,
        dischargeDelta c p ≤ x ∧ x ≤ 1 + dischargeDelta c p) →
      (socSeq c SoC0 ds sps).Chain' (fun a b => b < a) := by
  intro ds
  induction ds with
  | nil =>
    intro SoC0 sps hm hc
    unfold socSeq
    rw [simulate_nil_demand]
    simp
  | cons d ds ih =>
    intro SoC0 sps hm hc
    cases sps with
    | nil =>
      unfold socSeq
      rw [simulate_nil_speed]
      simp
    | cons v sps =>
      have hmotor : (simStep c SoC0 d v).1.motor_power = p := by
        apply hm
        rw [simulate_cons]
        exact List.mem_cons_self _ _
      have hb := hc SoC0 (List.mem_cons_self _ _)
      have hstep : (simStep c SoC0 d v).1.SoC = SoC0 - dischargeDelta c p := by
        rw [simStep_SoC, hmotor, integrate_of_pos c SoC0 hp]
        show clamp01 (SoC0 - dischargeDelta c p) = SoC0 - dischargeDelta c p
        exact clamp01_of_bounds (by linarith [hb.1]) (by linarith [hb.2])
      have hstep2 : (simStep c SoC0 d v).2 = SoC0 - dischargeDelta c p := by
        rw [simStep_snd, hstep]
      have key : socSeq c SoC0 (d :: ds) (v :: sps) =
          SoC0 :: socSeq c (SoC0 - dischargeDelta c p) ds sps := by
        unfold socSeq
        rw [simulate_cons, List.map_cons, hstep, hstep2]
      have hm' : ∀ out ∈ simulate c (SoC0 - dischargeDelta c p) ds sps,
          out.motor_power = p := by
        intro out hout
        apply hm
        rw [simulate_cons, hstep2]
        exact List.mem_cons_of_mem _ hout
      have hc' : ∀ x ∈ socSeq c (SoC0 - dischargeDelta c p) ds sps,
          dischargeDelta c p ≤ x ∧ x ≤ 1 + dischargeDelta c p := by
        intro x hx
        apply hc
        rw [key]
        exact List.mem_cons_of_mem _ hx
      rw [key]
      unfold socSeq
      rw [List.chain'_cons]
      constructor
      · linarith
      · have := ih (SoC0 - dischargeDelta c p) sps hm' hc'
        unfold socSeq at this
        exact this

/-- C8: if every step of a run draws the same strictly positive motor power
`p` and the clamp to `[0, 1]` is never active (the pre-clamp SoC value stays
in range at every step, expressed via the constant per-step decrement
`dischargeDelta`), then the SoC trajectory of the run is strictly
decreasing step-over-step. -/
theorem discharge_monotone (c : Config) (hdt : 0 < c.dt)
    (hV : 0 < c.battery_voltage) (hW : 0 < c.battery_capacity_Wh)
    (SoC0 p : ℚ) (hp : 0 < p) (ds sps : List ℚ)
    (hm : ∀ out ∈ simulate c SoC0 ds sps, out.motor_power = p)
    (hc : ∀ x ∈ socSeq c SoC0 ds sps,
      dischargeDelta c p ≤ x ∧ x ≤ 1 + dischargeDelta c p) :
    (socSeq c SoC0 ds sps).Chain' (fun a b => b < a) := by
  have hcap : 0 < battery_capacity_C c := by
    unfold battery_capacity_C
    exact div_pos (by linarith) hV
  have hδ : 0 < dischargeDelta c p := by
    unfold dischargeDelta
    exact div_pos (div_pos (by nlinarith) hV) hcap
  exact discharge_monotone_aux c p hp hδ ds SoC0 sps hm hc

/-- C8 witness: a two-step run at constant demand 10 (EV mode, `motor_power
= 10` at every step) starting at `SoC = 0.7`; the trajectory decreases by
`1/3600` each step and the clamp is never active. -/
theorem discharge_monotone_witness :
    (socSeq defaultConfig (7/10) [10, 10] [0, 0]).Chain' (fun a b => b < a) := by
  refine discharge_monotone defaultConfig (by norm_num [defaultConfig])
    (by norm_num [defaultConfig]) (by norm_num [defaultConfig]) (7/10) 10
    (by norm_num) [10, 10] [0, 0] ?_ ?_
  · intro out hout
    simp only [simulate, simStep] at hout
    norm_num [selectMode, powerSplit, integrate, clamp01, battery_capacity_C,
      defaultConfig] at hout
    rcases hout with h | h <;> subst h <;> rfl
  · intro x hx
    simp only [socSeq, simulate, simStep, List.map_cons, List.map_nil] at hx
    norm_num [selectMode, powerSplit, integrate, clamp01, battery_capacity_C,
      defaultConfig] at hx
    rcases hx with h | h | h <;> subst h <;>
      norm_num [dischargeDelta, battery_capacity_C, defaultConfig]

/-! ### C9: determinism and speed irrelevance -/

lemma speed_irrelevant_aux (c : Config) :
    ∀ (ds : List ℚ) (SoC0 : ℚ) (sps1 sps2 : List ℚ),
      sps1.length = ds.length → sps2.length = ds.length →
      simulate c SoC0 ds sps1 = simulate c SoC0 ds sps2 := by
  intro ds
  induction ds with
  | nil =>
    intro SoC0 sps1 sps2 _ _
    rw [simulate_nil_demand, simulate_nil_demand]
  | cons d ds ih =>
    intro SoC0 sps1 sps2 h1 h2
    cases sps1 with
    | nil => simp at h1
    | cons v1 sps1 =>
      cases sps2 with
      | nil => simp at h2
      | cons v2 sps2 =>
        rw [simulate_cons, simulate_cons]
        have hstep : simStep c SoC0 d v1 = simStep c SoC0 d v2 := rfl
        rw [hstep]
        congr 1
        exact ih _ sps1 sps2 (by simpa using h1) (by simpa using h2)

/-- C9: the run is a pure function of the configuration, the initial SoC
and the demand sequence: two runs with identical configuration, initial SoC
and demand sequences produce identical output traces even when their speed
sequences differ arbitrarily (speed is a dead input to the control and
battery logic). -/
theorem speed_irrelevant (c : Config) (SoC0 : ℚ) (ds sps1 sps2 : List ℚ)
    (h1 : sps1.length = ds.length) (h2 : sps2.length = ds.length) :
    simulate c SoC0 ds sps1 = simulate c SoC0 ds sps2 :=
  speed_irrelevant_aux c ds SoC0 sps1 sps2 h1 h2

/-- C9 witness: two concrete runs differing only in their speed sequences
produce the same trace. -/
theorem speed_irrelevant_witness :
    simulate defaultConfig (7/10) [10, 25] [0, 0] =
      simulate defaultConfig (7/10) [10, 25] [5, 20] :=
  speed_irrelevant defaultConfig (7/10) [10, 25] [0, 0] [5, 20] rfl rfl

/-! ### C10: motor and battery power bounds -/

lemma powerSplit_motor_bounds (c : Config) (hM : 0 ≤ c.Max_Electric_Power)
    (m : ℕ) (demand : ℚ) (hd : 0 ≤ demand) :
    0 ≤ (powerSplit c m demand).2 ∧
      (powerSplit c m demand).2 ≤ c.Max_Electric_Power := by
  unfold powerSplit
  split_ifs with h1 h2 h3
  · exact ⟨hd, h2⟩
  · exact ⟨hM, le_refl _⟩
  · exact ⟨le_min (by positivity) hM, min_le_right _ _⟩
  · exact ⟨le_refl _, hM⟩

lemma battery_eq_motor_mem (c : Config) :
    ∀ (ds : List ℚ) (SoC0 : ℚ) (sps : List ℚ),
      ∀ out ∈ simulate c SoC0 ds sps, out.battery_power = out.motor_power := by
  intro ds
  induction ds with
  | nil =>
    intro SoC0 sps
    simp [simulate_nil_demand]
  | cons d ds ih =>
    intro SoC0 sps out hout
    cases sps with
    | nil =>
      rw [simulate_nil_speed] at hout
      simp at hout
    | cons v sps =>
      rw [simulate_cons, List.mem_cons] at hout
      rcases hout with h | h
      · subst h
        exact simStep_battery c SoC0 d v
      · exact ih _ sps out h

lemma simulate_motor_bounds_aux (c : Config) (hM : 0 ≤ c.Max_Electric_Power) :
    ∀ (ds : List ℚ) (SoC0 : ℚ) (sps : List ℚ) (i : ℕ) (dval : ℚ)
      (out : StepOutput),
      ds.get? i = some dval → (simulate c SoC0 ds sps).get? i = some out →
      0 ≤ dval →
      0 ≤ out.motor_power ∧ out.motor_power ≤ c.Max_Electric_Power := by
  intro ds
  induction ds with
  | nil =>
    intro SoC0 sps i dval out hdi hoi hd
    simp at hdi
  | cons d ds ih =>
    intro SoC0 sps i dval out hdi hoi hd
    cases sps with
    | nil =>
      rw [simulate_nil_speed] at hoi
      simp at hoi
    | cons v sps =>
      rw [simulate_cons] at hoi
      cases i with
      | zero =>
        rw [List.get?_cons_zero] at hdi hoi
        obtain rfl : d = dval := by injection hdi
        obtain rfl : (simStep c SoC0 d v).1 = out := by injection hoi
        rw [simStep_motor]
        exact powerSplit_motor_bounds c hM _ d hd
      | succ n =>
        rw [List.get?_cons_succ] at hdi hoi
        exact ih _ sps n dval out hdi hoi hd

/-- C10: at every step whose demand is non-negative, the motor power lies in
`[0, Max_Electric_Power]` (EV saturates at the ceiling, Hybrid is capped by
the `min`, Engine Only uses no motor), the recorded battery net power equals
the motor power exactly, and hence is bounded the same way. -/
theorem motor_battery_bounds (c : Config) (hM : 0 ≤ c.Max_Electric_Power)
    (SoC0 : ℚ) (ds sps : List ℚ) (i : ℕ) (dval : ℚ) (out : StepOutput)
    (hdi : ds.get? i = some dval) (hd : 0 ≤ dval)
    (hoi : (simulate c SoC0 ds sps).get? i = some out) :
    (0 ≤ out.motor_power ∧ out.motor_power ≤ c.Max_Electric_Power) ∧
    out.battery_power = out.motor_power ∧
    (0 ≤ out.battery_power ∧ out.battery_power ≤ c.Max_Electric_Power) := by
  have hmb := simulate_motor_bounds_aux c hM ds SoC0 sps i dval out hdi hoi hd
  have hbm : out.battery_power = out.motor_power :=
    battery_eq_motor_mem c ds SoC0 sps out (List.get?_mem hoi)
  refine ⟨hmb, hbm, ?_⟩
  rw [hbm]
  exact hmb

/-- C10 witness: the first step of a run with demand 25 from `SoC = 0.7`
(Hybrid mode, `motor_power = 12.5`). -/
theorem motor_battery_bounds_witness :
    (0 ≤ (simStep defaultConfig (7/10) 25 0).1.motor_power ∧
     (simStep defaultConfig (7/10) 25 0).1.motor_power ≤
       defaultConfig.Max_Electric_Power) ∧
    (simStep defaultConfig (7/10) 25 0).1.battery_power =
      (simStep defaultConfig (7/10) 25 0).1.motor_power ∧
    (0 ≤ (simStep defaultConfig (7/10) 25 0).1.battery_power ∧
     (simStep defaultConfig (7/10) 25 0).1.battery_power ≤
       defaultConfig.Max_Electric_Power) :=
  motor_battery_bounds defaultConfig (by norm_num [defaultConfig]) (7/10)
    [25] [0] 0 25 (simStep defaultConfig (7/10) 25 0).1 rfl (by norm_num) rfl

end EnergyManagement
